import Mathlib

/-!
Shallow embedding of the job-execution engine in `src/cmd/start.go`
(functions `start` and `ingest`), together with proofs about the
behaviour of task selection, batch ingestion with retry/backoff, and
job-end reporting.

HTTP interaction is modelled by an environment: each batch carries the
outcome of request construction (`reqOk`, mirroring `rest.NewRequest`)
and a response oracle `resp : Nat → Response` giving the result of the
n-th `bheClient.Do` call for that batch.
-/

/-- Outcome of one `bheClient.Do` call: either a transport/network error
(the `err != nil` branch) or an HTTP response with a status code. -/
inductive Response where
  | transportError
  | status (code : Nat)
deriving DecidableEq

/-- Environment for one batch taken off the channel in `ingest`:
whether `rest.NewRequest` succeeds, and the response to each attempt. -/
structure BatchEnv where
  reqOk : Bool
  resp : Nat → Response

/-- Observable behaviour of the retry loop (lines 197-218) on one batch:
how many HTTP requests were issued, the `time.Sleep` durations in seconds
in order, whether the loop aborted the whole job (`return true`), and
whether it set `hasErrors` (retry limit exceeded). -/
structure BatchOutcome where
  attempts : Nat
  sleeps : List Nat
  aborted : Bool
  flaggedErr : Bool
deriving DecidableEq

/-- Mirror of `maxRetries := 3` in `ingest`. -/
def maxRetries : Nat := 3

/-- The inner retry loop `for retry := 0; retry < maxRetries; retry++` of
`ingest` (lines 197-218), as structural recursion on the remaining fuel
`maxRetries - retry`.  Branches in source order: transport error aborts;
503/504 sleeps `5^(retry+1)` seconds, sets `hasErrors` on the last retry,
and continues; any other non-202 status aborts; on 202 the source has no
`break`, so the loop continues and the same batch is sent again. -/
def retryLoop (resp : Nat → Response) : Nat → Nat → BatchOutcome
  | 0, _ => { attempts := 0, sleeps := [], aborted := false, flaggedErr := false }
  | fuel + 1, retry =>
    match resp retry with
    | Response.transportError =>
      { attempts := 1, sleeps := [], aborted := true, flaggedErr := false }
    | Response.status code =>
      if code = 504 ∨ code = 503 then
        let rest := retryLoop resp fuel (retry + 1)
        { attempts := rest.attempts + 1
          sleeps := 5 ^ (retry + 1) :: rest.sleeps
          aborted := rest.aborted
          flaggedErr := (decide (retry = maxRetries - 1) || rest.flaggedErr) }
      else if code ≠ 202 then
        { attempts := 1, sleeps := [], aborted := true, flaggedErr := false }
      else
        let rest := retryLoop resp fuel (retry + 1)
        { attempts := rest.attempts + 1
          sleeps := rest.sleeps
          aborted := rest.aborted
          flaggedErr := rest.flaggedErr }

/-- The full retry loop for one batch, starting at `retry = 0`. -/
def runBatch (resp : Nat → Response) : BatchOutcome :=
  retryLoop resp maxRetries 0

/-- Outcome recorded when `rest.NewRequest` itself fails (line 193-195):
no HTTP request is issued and the job aborts. -/
def reqFailOutcome : BatchOutcome :=
  { attempts := 0, sleeps := [], aborted := true, flaggedErr := false }

/-- The `ingest` function (lines 173-222) over the sequence of batches
read from the channel.  Returns the per-batch outcomes for the batches
that were actually processed and the Bool returned to the caller
(`hasErrors`, or the literal `true` of an unrecoverable abort). -/
def ingest : List BatchEnv → List BatchOutcome × Bool
  | [] => ([], false)
  | e :: rest =>
    if e.reqOk = false then ([reqFailOutcome], true)
    else
      let o := runBatch e.resp
      if o.aborted then ([o], true)
      else
        let r := ingest rest
        (o :: r.1, o.flaggedErr || r.2)

/-- Total number of HTTP requests issued by an ingest pass. -/
def totalRequests (r : List BatchOutcome × Bool) : Nat :=
  (r.1.map (fun o => o.attempts)).sum

/-- Transient responses per the source: HTTP 504 or 503. -/
def isTransient : Response → Bool
  | Response.transportError => false
  | Response.status code => code = 504 || code = 503

/-- Responses on which the retry loop aborts the whole job: a transport
error, or any status that is neither transient (503/504) nor 202. -/
def isAbortResp : Response → Bool
  | Response.transportError => true
  | Response.status code => !(code = 504 || code = 503 || code = 202)

/-- Result of handling one batch in the response-handling policy as the
spec words it (§4.3): accepted stops the batch successfully, exhausting
the transient retries fails the batch but continues the job, anything
else aborts the job. -/
inductive SpecBatchResult where
  | accepted
  | exhausted
  | aborted
deriving DecidableEq

/-- Per-batch attempt loop following the spec's words (§4.3), for
comparison with `retryLoop`: a transport error or a non-transient
non-accepted status aborts; a transient status retries; an accepted
status ends the batch (no further requests for it). -/
def specAttempts (resp : Nat → Response) : Nat → Nat → SpecBatchResult
  | 0, _ => SpecBatchResult.exhausted
  | fuel + 1, k =>
    match resp k with
    | Response.transportError => SpecBatchResult.aborted
    | Response.status code =>
      if code = 504 ∨ code = 503 then specAttempts resp fuel (k + 1)
      else if code ≠ 202 then SpecBatchResult.aborted
      else SpecBatchResult.accepted

/-- Job-level ingest error flag following the spec's words (§4.3): true
iff an unrecoverable abort occurred or some batch exhausted its transient
retries; false only if every batch was accepted. -/
def specIngestFlag : List BatchEnv → Bool
  | [] => false
  | e :: rest =>
    if e.reqOk = false then true
    else
      match specAttempts e.resp maxRetries 0 with
      | SpecBatchResult.aborted => true
      | SpecBatchResult.exhausted => true
      | SpecBatchResult.accepted => specIngestFlag rest

/-- A batch whose first POST is accepted (HTTP 202) and whose spurious
re-sends (the source loop has no success exit) hit HTTP 503. -/
def respAcceptedThenTransient : Nat → Response := fun k =>
  if k = 0 then Response.status 202 else Response.status 503

/-- Mirror of `models.ClientTask` as used by `start`: the task id and the
`ExectionTime` field (timestamps modelled as integers). -/
structure ClientTask where
  id : Nat
  exectionTime : Int
deriving DecidableEq

/-- Lines 114-121 of `start`: keep the tasks whose execution time has
been reached (`Before(now) || Equal(now)`, i.e. `≤ now`). -/
def executableTasks (now : Int) (tasks : List ClientTask) : List ClientTask :=
  tasks.filter (fun t => decide (t.exectionTime ≤ now))

/-- Contract of Go's `sort.Slice` with the comparator of line 124-126
(strictly earlier execution time), modelled at its documented interface:
the output is a permutation of the input that is sorted with respect to
the comparator.  `sort.Slice` is documented as NOT stable, so nothing
more is guaranteed about the order of tied elements. -/
def IsSortSliceResult (orig sorted : List ClientTask) : Prop :=
  List.Perm orig sorted ∧
  List.Pairwise (fun a b => a.exectionTime ≤ b.exectionTime) sorted

instance instDecIsSortSliceResult (orig sorted : List ClientTask) :
    Decidable (IsSortSliceResult orig sorted) :=
  inferInstanceAs (Decidable (_ ∧ _))

/-- The selection described by the claim, for comparison: among due
tasks, the one with minimal execution time, ties broken by original
discovery order (the first such task in the fetched list). -/
def stableSelect (now : Int) (tasks : List ClientTask) : Option ClientTask :=
  match executableTasks now tasks with
  | [] => none
  | t :: ts =>
    some (ts.foldl (fun best u => if u.exectionTime < best.exectionTime then u else best) t)

/-- Modelled from the spec: the `models.JobStatus` enumeration is not
under `src/`; §3 gives the JobOutcome enumeration
`{Completed, CompletedWithErrors}`.  The call site in `start` (line 155)
uses only the constant `models.JobStatusComplete`. -/
inductive JobStatus where
  | complete
  | completedWithErrors
deriving DecidableEq

/-- The constant `models.JobStatusComplete` passed by `start` to
`endTask` in every case. -/
def jobStatusComplete : JobStatus := JobStatus.complete

/-- Body of the job-end report (`models.CompleteJobRequest`): the status
and the free-text message sent to `/api/v2/jobs/end`. -/
structure EndReport where
  status : JobStatus
  message : String
deriving DecidableEq

/-- Lines 150-155 of `start`: the report passed to `endTask`.  The
status is always `models.JobStatusComplete`; only the message depends on
the ingest error flag. -/
def jobEndReport (hasIngestErr : Bool) : EndReport :=
  { status := jobStatusComplete
    message :=
      if hasIngestErr then "Collection completed with errors during ingest"
      else "Collection completed successfully" }

/-- Environment of one selection goroutine (lines 108-164): whether
`getAvailableTasks` succeeds, whether `startTask` succeeds, the batch
stream produced for the job, and whether `endTask` succeeds. -/
structure TickEnv where
  fetchOk : Bool
  startOk : Bool
  batches : List BatchEnv
  endOk : Bool

/-- Observable result of one selection goroutine: the final value it
leaves in `currentTask`, whether `startTask` was called, whether
execution (stream/batching/ingest) began, the end report sent (if any),
and the per-batch ingest outcomes. -/
structure UnitResult where
  currentTask : Option Nat
  startTaskCalled : Bool
  executed : Bool
  endReport : Option EndReport
  ingestOutcomes : List BatchOutcome
deriving DecidableEq

/-- The body of the selection goroutine (lines 108-164), sequentially:
`sorted` is the output of `sort.Slice` on the executable tasks
(constrained by `IsSortSliceResult` where a claim needs it).  On fetch
failure only a log is emitted; with no executable task nothing happens;
if `startTask` fails, `currentTask` is reset to `nil` and the goroutine
returns; otherwise the job runs, `endTask` is called (its own failure is
only logged), and `currentTask` is cleared unconditionally (line 161). -/
def runSelectionUnit (env : TickEnv) (sorted : List ClientTask) : UnitResult :=
  if env.fetchOk = false then
    { currentTask := none, startTaskCalled := false, executed := false
      endReport := none, ingestOutcomes := [] }
  else
    match sorted.head? with
    | none =>
      { currentTask := none, startTaskCalled := false, executed := false
        endReport := none, ingestOutcomes := [] }
    | some _ =>
      if env.startOk = false then
        { currentTask := none, startTaskCalled := true, executed := false
          endReport := none, ingestOutcomes := [] }
      else
        let r := ingest env.batches
        { currentTask := none, startTaskCalled := true, executed := true
          endReport := some (jobEndReport r.2), ingestOutcomes := r.1 }

/-- What the ticker loop does on a tick (lines 102-107): heartbeat when
a task is marked running, otherwise dispatch a selection goroutine. -/
inductive TickAction where
  | heartbeat
  | select
deriving DecidableEq

/-- Dispatch decision of the ticker loop, reading `currentTask`. -/
def tickDispatch : Option Nat → TickAction
  | some _ => TickAction.heartbeat
  | none => TickAction.select

/-- Phase of one dispatched selection goroutine in the interleaved model
of `start`: still inside `getAvailableTasks`/filtering (before the
line-133 write of `currentTask`), running a job after a successful
`startTask`, or finished. -/
inductive UnitPhase where
  | fetching
  | running (tid : Nat)
  | done
deriving DecidableEq

/-- Shared state of `start`: the `currentTask` variable (here just the
task id) and the phases of the dispatched goroutines. -/
structure SchedState where
  currentTask : Option Nat
  units : List UnitPhase
deriving DecidableEq

/-- Interleaved small-step semantics of `start` (lines 95-169).  The
ticker loop reads the plain variable `currentTask` and spawns a goroutine
when it is `nil`; each goroutine later writes `currentTask` (lines 133,
136, 161) concurrently with the loop.  A goroutine still in `fetching`
has not yet performed its line-133 write, so a tick occurring in that
window still sees `currentTask = nil`. -/
inductive SchedStep : SchedState → SchedState → Prop where
  | tickSpawn (us : List UnitPhase) :
      SchedStep ⟨none, us⟩ ⟨none, UnitPhase.fetching :: us⟩
  | unitNoTasks (cur : Option Nat) (l1 l2 : List UnitPhase) :
      SchedStep ⟨cur, l1 ++ UnitPhase.fetching :: l2⟩ ⟨cur, l1 ++ UnitPhase.done :: l2⟩
  | unitStartFail (cur : Option Nat) (l1 l2 : List UnitPhase) :
      SchedStep ⟨cur, l1 ++ UnitPhase.fetching :: l2⟩ ⟨none, l1 ++ UnitPhase.done :: l2⟩
  | unitStart (cur : Option Nat) (tid : Nat) (l1 l2 : List UnitPhase) :
      SchedStep ⟨cur, l1 ++ UnitPhase.fetching :: l2⟩
        ⟨some tid, l1 ++ UnitPhase.running tid :: l2⟩
  | unitFinish (cur : Option Nat) (tid : Nat) (l1 l2 : List UnitPhase) :
      SchedStep ⟨cur, l1 ++ UnitPhase.running tid :: l2⟩ ⟨none, l1 ++ UnitPhase.done :: l2⟩

/-- True of goroutines currently executing a collection job. -/
def isRunningUnit : UnitPhase → Bool
  | UnitPhase.running _ => true
  | _ => false

/-- Number of collection jobs running at once. -/
def runningCount (s : SchedState) : Nat :=
  s.units.countP isRunningUnit

/-- Initial state of the `start` loop: no task marked, no goroutines. -/
def schedInit : SchedState := ⟨none, []⟩

/-- A response is transient exactly when it is HTTP 504 or 503. -/
theorem isTransient_eq_true_iff (r : Response) :
    isTransient r = true ↔ r = Response.status 504 ∨ r = Response.status 503 := by
  cases r with
  | transportError => simp [isTransient]
  | status code => simp [isTransient]

/-- Unfolding `ingest` on a batch whose retry loop does not abort. -/
theorem ingest_cons_not_aborted (e : BatchEnv) (rest : List BatchEnv)
    (h1 : e.reqOk = true) (h2 : (runBatch e.resp).aborted = false) :
    ingest (e :: rest) =
      (runBatch e.resp :: (ingest rest).1,
        (runBatch e.resp).flaggedErr || (ingest rest).2) := by
  simp [ingest, h1, h2]

/-- Unfolding `ingest` on a batch whose retry loop aborts the job. -/
theorem ingest_cons_aborted (e : BatchEnv) (rest : List BatchEnv)
    (h1 : e.reqOk = true) (h2 : (runBatch e.resp).aborted = true) :
    ingest (e :: rest) = ([runBatch e.resp], true) := by
  simp [ingest, h1, h2]

/-- Shifting a bounded existential by one attempt index. -/
theorem exists_attempt_shift (P : Nat → Prop) (n retry : Nat) (hnot : ¬ P retry) :
    (∃ k, k < n ∧ P (retry + 1 + k)) ↔ ∃ k, k < n + 1 ∧ P (retry + k) := by
  constructor
  · rintro ⟨k, hk, h⟩
    refine ⟨k + 1, by omega, ?_⟩
    have e : retry + (k + 1) = retry + 1 + k := by omega
    rw [e]
    exact h
  · rintro ⟨k, hk, h⟩
    cases k with
    | zero =>
      rw [Nat.add_zero] at h
      exact absurd h hnot
    | succ m =>
      refine ⟨m, by omega, ?_⟩
      have e : retry + 1 + m = retry + (m + 1) := by omega
      rw [e]
      exact h

/-- The retry loop aborts exactly when one of the responses it can reach
is a transport error or a non-transient non-accepted status. -/
theorem retryLoop_aborted_iff (resp : Nat → Response) (fuel : Nat) :
    ∀ retry, ((retryLoop resp fuel retry).aborted = true ↔
      ∃ k, k < fuel ∧ isAbortResp (resp (retry + k)) = true) := by
  induction fuel with
  | zero =>
    intro retry
    simp [retryLoop]
  | succ n ih =>
    intro retry
    rcases hr : resp retry with _ | code
    · simp only [retryLoop, hr]
      constructor
      · intro _
        exact ⟨0, Nat.succ_pos n, by simp [hr, isAbortResp]⟩
      · intro _
        trivial
    · by_cases h50 : code = 504 ∨ code = 503
      · have hnot : ¬ isAbortResp (resp retry) = true := by
          rcases h50 with h | h <;> simp [isAbortResp, hr, h]
        simp only [retryLoop, hr, if_pos h50]
        rw [ih (retry + 1)]
        exact exists_attempt_shift (fun m => isAbortResp (resp m) = true) n retry hnot
      · by_cases h202 : code = 202
        · have hnot : ¬ isAbortResp (resp retry) = true := by
            simp [isAbortResp, hr, h202]
          have hne : ¬ code ≠ 202 := by simpa using h202
          simp only [retryLoop, hr, if_neg h50, if_neg hne]
          rw [ih (retry + 1)]
          exact exists_attempt_shift (fun m => isAbortResp (resp m) = true) n retry hnot
        · push_neg at h50
          simp only [retryLoop, hr, if_neg (by simpa using h50 : ¬ (code = 504 ∨ code = 503)),
            if_pos h202]
          constructor
          · intro _
            exact ⟨0, Nat.succ_pos n, by simp [isAbortResp, hr, h50.1, h50.2, h202]⟩
          · intro _
            trivial

/-- Claim C10 (confirmed): if the batch sequence for a job is empty, the
ingest pass issues no requests and returns a false error flag, and the
job is reported with the success message. -/
theorem empty_batch_stream_reports_success :
    ingest [] = ([], false) ∧ totalRequests (ingest []) = 0 ∧
    jobEndReport (ingest []).2 =
      { status := JobStatus.complete, message := "Collection completed successfully" } :=
  ⟨rfl, rfl, rfl⟩

/-- Claim C2 (code_bug): a batch whose POSTs all return the expected
HTTP 202 Accepted status is nevertheless sent `maxRetries = 3` times —
the retry loop has no success exit, so the client does issue further
requests for an already accepted batch before moving on. -/
theorem accepted_batch_is_resent :
    (runBatch (fun _ => Response.status 202)).attempts = 3 ∧
    totalRequests (ingest [⟨true, fun _ => Response.status 202⟩]) = 3 ∧
    (ingest [⟨true, fun _ => Response.status 202⟩]).2 = false :=
  ⟨rfl, rfl, rfl⟩

/-- Claim C7 (code_bug): for a batch accepted on its first attempt whose
spurious re-sends hit HTTP 503, the code's ingest pass returns a true
error flag even though no unrecoverable abort occurred and, under the
spec's own retry policy, no batch exhausted its transient retries (the
spec-words flag is false). -/
theorem ingest_flag_true_for_accepted_batch :
    (ingest [⟨true, respAcceptedThenTransient⟩]).2 = true ∧
    (ingest [⟨true, respAcceptedThenTransient⟩]).1.map (fun o => o.aborted) = [false] ∧
    specIngestFlag [⟨true, respAcceptedThenTransient⟩] = false :=
  ⟨rfl, rfl, rfl⟩

/-- Claim C1 (corrected), counterexample: when ingest errors occurred,
the reported status is still `models.JobStatusComplete`, not the distinct
CompletedWithErrors outcome the claim requires; only the message records
the degradation. -/
theorem end_report_status_is_always_complete :
    (jobEndReport true).status = JobStatus.complete ∧
    ¬ (jobEndReport true).status = JobStatus.completedWithErrors ∧
    (jobEndReport true).message = "Collection completed with errors during ingest" :=
  ⟨rfl, by decide, rfl⟩

/-- Claim C1 (corrected, amended): for every executed task the job-end
report carries the constant status `models.JobStatusComplete`, and the
ingest outcome is conveyed by the message, which explains success or
ingest errors. -/
theorem end_report_message_reflects_ingest_errors (env : TickEnv) (sorted : List ClientTask)
    (t : ClientTask) (hfetch : env.fetchOk = true) (hhead : sorted.head? = some t)
    (hstart : env.startOk = true) :
    (runSelectionUnit env sorted).endReport =
      some { status := JobStatus.complete
             message :=
               if (ingest env.batches).2 then "Collection completed with errors during ingest"
               else "Collection completed successfully" } := by
  unfold runSelectionUnit
  rw [hfetch, hhead, hstart]
  simp [jobEndReport, jobStatusComplete]

/-- Witness for the amended claim C1 at a concrete environment. -/
theorem end_report_message_reflects_ingest_errors_witness :
    (runSelectionUnit ⟨true, true, [], true⟩ [⟨1, 0⟩]).endReport =
      some { status := JobStatus.complete, message := "Collection completed successfully" } := by
  have h := end_report_message_reflects_ingest_errors ⟨true, true, [], true⟩ [⟨1, 0⟩] ⟨1, 0⟩
    rfl rfl rfl
  exact h

/-- Claim C3 (corrected, amended): for every fetched task list and every
output `sort.Slice` may produce, the selected head task (if any) is due
and has minimal execution time among the due tasks, and when no task is
due no task is selected.  Which of several tied minima is selected is not
fixed, because `sort.Slice` is unstable. -/
theorem selected_task_is_minimal_due (tasks sorted : List ClientTask) (now : Int)
    (hs : IsSortSliceResult (executableTasks now tasks) sorted) :
    (executableTasks now tasks = [] → sorted.head? = none) ∧
    ∀ t, sorted.head? = some t →
      t.exectionTime ≤ now ∧
      ∀ u ∈ tasks, u.exectionTime ≤ now → t.exectionTime ≤ u.exectionTime := by
  obtain ⟨hperm, hsort⟩ := hs
  constructor
  · intro hnil
    rw [hnil] at hperm
    rw [hperm.symm.eq_nil]
    rfl
  · intro t ht
    cases sorted with
    | nil => cases ht
    | cons a l =>
      rw [List.head?_cons, Option.some.injEq] at ht
      subst ht
      have hmem : a ∈ executableTasks now tasks := hperm.mem_iff.mpr (List.mem_cons_self a l)
      have hdue : a.exectionTime ≤ now := by
        have := (List.mem_filter.mp hmem).2
        simpa using this
      refine ⟨hdue, ?_⟩
      intro u hu hudue
      have humem : u ∈ executableTasks now tasks :=
        List.mem_filter.mpr ⟨hu, by simpa using hudue⟩
      have : u ∈ a :: l := hperm.mem_iff.mp humem
      rcases List.mem_cons.mp this with h | h
      · rw [h]
      · exact (List.pairwise_cons.mp hsort).1 u h

/-- Witness for the amended claim C3 at a concrete task list. -/
theorem selected_task_is_minimal_due_witness :
    (⟨2, 3⟩ : ClientTask).exectionTime ≤ 10 ∧
    (⟨2, 3⟩ : ClientTask).exectionTime ≤ (⟨1, 5⟩ : ClientTask).exectionTime := by
  have h := selected_task_is_minimal_due [⟨1, 5⟩, ⟨2, 3⟩] [⟨2, 3⟩, ⟨1, 5⟩] 10 (by decide)
  exact ⟨(h.2 ⟨2, 3⟩ rfl).1, (h.2 ⟨2, 3⟩ rfl).2 ⟨1, 5⟩ (by decide) (by decide)⟩

/-- Claim C3 (corrected), counterexample to the stable tie-break: on two
due tasks with equal execution times, the reversed order is a valid
`sort.Slice` output (a sorted permutation), so the code may select task 2
although the claim's stable tie-break demands task 1, the first in
discovery order. -/
theorem unstable_sort_can_break_discovery_order_tie :
    IsSortSliceResult (executableTasks 0 [⟨1, 0⟩, ⟨2, 0⟩]) [⟨2, 0⟩, ⟨1, 0⟩] ∧
    ([⟨2, 0⟩, ⟨1, 0⟩] : List ClientTask).head? = some ⟨2, 0⟩ ∧
    stableSelect 0 [⟨1, 0⟩, ⟨2, 0⟩] = some ⟨1, 0⟩ ∧
    ¬ (⟨2, 0⟩ : ClientTask) = ⟨1, 0⟩ :=
  ⟨by decide, rfl, by decide, by decide⟩

/-- Claim C5 (confirmed): a batch receiving only transient responses is
attempted exactly `maxRetries = 3` times, the sleep before the 2nd
attempt is `5^1 = 5` seconds and before the 3rd `5^2 = 25` seconds (the
source also sleeps `5^3` after the final attempt), the batch is recorded
as failed (`hasErrors`), and ingestion continues with the next batch
instead of aborting the job. -/
theorem transient_retries_backoff_and_continue (e : BatchEnv) (rest : List BatchEnv)
    (hreq : e.reqOk = true)
    (htr : ∀ k, k < maxRetries → isTransient (e.resp k) = true) :
    runBatch e.resp =
      { attempts := 3, sleeps := [5, 25, 125], aborted := false, flaggedErr := true } ∧
    ingest (e :: rest) =
      ({ attempts := 3, sleeps := [5, 25, 125], aborted := false, flaggedErr := true }
        :: (ingest rest).1, true) := by
  have h0 := (isTransient_eq_true_iff (e.resp 0)).mp (htr 0 (by decide))
  have h1 := (isTransient_eq_true_iff (e.resp 1)).mp (htr 1 (by decide))
  have h2 := (isTransient_eq_true_iff (e.resp 2)).mp (htr 2 (by decide))
  have hrb : runBatch e.resp =
      { attempts := 3, sleeps := [5, 25, 125], aborted := false, flaggedErr := true } := by
    rcases h0 with h0 | h0 <;> rcases h1 with h1 | h1 <;> rcases h2 with h2 | h2 <;>
      simp [runBatch, maxRetries, retryLoop, h0, h1, h2]
  refine ⟨hrb, ?_⟩
  rw [ingest_cons_not_aborted e rest hreq (by rw [hrb]), hrb]
  rfl

/-- Witness for claim C5: three consecutive 503 responses. -/
theorem transient_retries_backoff_and_continue_witness :
    runBatch (fun _ => Response.status 503) =
      { attempts := 3, sleeps := [5, 25, 125], aborted := false, flaggedErr := true } ∧
    ingest [⟨true, fun _ => Response.status 503⟩] =
      ([{ attempts := 3, sleeps := [5, 25, 125], aborted := false, flaggedErr := true }],
        true) := by
  have h := transient_retries_backoff_and_continue ⟨true, fun _ => Response.status 503⟩ []
    rfl (fun k _ => rfl)
  exact ⟨h.1, h.2.trans (by decide)⟩

/-- Claim C6 (confirmed): as soon as a transport failure or a
non-transient, non-accepted status is received for some batch — after
any number of earlier non-aborting batches — the ingest pass returns the
failure flag and processes no further batch. -/
theorem unrecoverable_response_aborts_ingest (pre : List BatchEnv) (e : BatchEnv)
    (rest : List BatchEnv)
    (hpre : ∀ b ∈ pre, b.reqOk = true ∧ (runBatch b.resp).aborted = false)
    (hreq : e.reqOk = true)
    (habort : ∃ k, k < maxRetries ∧ isAbortResp (e.resp k) = true) :
    ingest (pre ++ e :: rest) =
      ((pre.map fun b => runBatch b.resp) ++ [runBatch e.resp], true) := by
  have he : (runBatch e.resp).aborted = true := by
    rw [runBatch, retryLoop_aborted_iff]
    obtain ⟨k, hk, hab⟩ := habort
    exact ⟨k, hk, by simpa using hab⟩
  induction pre with
  | nil =>
    simpa using ingest_cons_aborted e rest hreq he
  | cons b pre ih =>
    obtain ⟨hb1, hb2⟩ := hpre b (List.mem_cons_self b _)
    have ih' := ih (fun x hx => hpre x (List.mem_cons_of_mem b hx))
    rw [List.cons_append, ingest_cons_not_aborted b _ hb1 hb2, ih']
    simp

/-- Witness for claim C6: an accepted batch, then a batch answered with
HTTP 400, then a batch that is never attempted. -/
theorem unrecoverable_response_aborts_ingest_witness :
    ingest [⟨true, fun _ => Response.status 202⟩, ⟨true, fun _ => Response.status 400⟩,
        ⟨true, fun _ => Response.status 202⟩] =
      ([⟨3, [], false, false⟩, ⟨1, [], true, false⟩], true) := by
  have h := unrecoverable_response_aborts_ingest [⟨true, fun _ => Response.status 202⟩]
    ⟨true, fun _ => Response.status 400⟩ [⟨true, fun _ => Response.status 202⟩]
    (by
      intro b hb
      rw [List.mem_singleton] at hb
      subst hb
      exact ⟨rfl, rfl⟩)
    rfl ⟨0, by decide, rfl⟩
  exact h.trans (by decide)

/-- Claim C8 (confirmed): when `startTask` fails, the goroutine leaves
no task marked as running, calls nothing further (no stream, no ingest,
no end report), and the next tick dispatches selection again. -/
theorem start_failure_abandons_selection (env : TickEnv) (sorted : List ClientTask)
    (t : ClientTask) (hfetch : env.fetchOk = true) (hhead : sorted.head? = some t)
    (hstart : env.startOk = false) :
    runSelectionUnit env sorted =
      { currentTask := none, startTaskCalled := true, executed := false
        endReport := none, ingestOutcomes := [] } ∧
    tickDispatch (runSelectionUnit env sorted).currentTask = TickAction.select := by
  have h : runSelectionUnit env sorted =
      { currentTask := none, startTaskCalled := true, executed := false
        endReport := none, ingestOutcomes := [] } := by
    unfold runSelectionUnit
    rw [hfetch, hhead, hstart]
    simp
  exact ⟨h, by rw [h]; rfl⟩

/-- Witness for claim C8 at a concrete environment. -/
theorem start_failure_abandons_selection_witness :
    runSelectionUnit ⟨true, false, [], true⟩ [⟨1, 0⟩] =
      { currentTask := none, startTaskCalled := true, executed := false
        endReport := none, ingestOutcomes := [] } ∧
    tickDispatch (runSelectionUnit ⟨true, false, [], true⟩ [⟨1, 0⟩]).currentTask =
      TickAction.select :=
  start_failure_abandons_selection ⟨true, false, [], true⟩ [⟨1, 0⟩] ⟨1, 0⟩ rfl rfl rfl

/-- Claim C9 (confirmed): however a selection goroutine ends, it leaves
`currentTask` cleared; the result does not depend on whether the
end-report call succeeds, and the next tick dispatches selection. -/
theorem job_slot_cleared_unconditionally (env : TickEnv) (sorted : List ClientTask) :
    (runSelectionUnit env sorted).currentTask = none ∧
    runSelectionUnit { env with endOk := true } sorted =
      runSelectionUnit { env with endOk := false } sorted ∧
    tickDispatch (runSelectionUnit env sorted).currentTask = TickAction.select := by
  have hcur : ∀ (e : TickEnv) (s : List ClientTask), (runSelectionUnit e s).currentTask = none := by
    intro e s
    unfold runSelectionUnit
    split
    · rfl
    · split
      · rfl
      · split
        · rfl
        · rfl
  have hend : runSelectionUnit { env with endOk := true } sorted =
      runSelectionUnit { env with endOk := false } sorted := by
    obtain ⟨f, st, bs, eo⟩ := env
    rfl
  refine ⟨hcur env sorted, hend, ?_⟩
  rw [hcur env sorted]
  rfl

/-- Claim C4 (code_bug): in the interleaved semantics of `start`, a
state with two collection jobs running at once is reachable.  The
goroutine dispatched by one tick has not yet performed its line-133
write of `currentTask` when the next tick reads the unsynchronized
variable, so a second goroutine is dispatched and both pass `startTask`
before either outcome is reported. -/
theorem two_running_jobs_reachable :
    Relation.ReflTransGen SchedStep schedInit
      ⟨some 2, [UnitPhase.running 1, UnitPhase.running 2]⟩ ∧
    runningCount ⟨some 2, [UnitPhase.running 1, UnitPhase.running 2]⟩ = 2 := by
  constructor
  · exact Relation.ReflTransGen.tail
      (Relation.ReflTransGen.tail
        (Relation.ReflTransGen.tail
          (Relation.ReflTransGen.tail Relation.ReflTransGen.refl
            (SchedStep.tickSpawn []))
          (SchedStep.tickSpawn [UnitPhase.fetching]))
        (SchedStep.unitStart none 1 [] [UnitPhase.fetching]))
      (SchedStep.unitStart (some 1) 2 [UnitPhase.running 1] [])
  · decide
